import Mathlib

/-!
Shallow embedding of the GBA-image-tools video converter (`vid2h.cpp`),
the shared image structures (`src/imagestructs.cpp`) and the on-device
decoder entry point (`gba/video.cpp`), together with theorems settling
the specification claims about them.
-/

namespace GBAIT

/-! ## Color formats (`src/imagestructs.cpp`) -/

/-- The `Image::ColorFormat` enumeration.  The declared tags are the seven of
the spec; `unknownTag n` stands for any other value of the underlying
integer type (a C++ scoped enumeration admits such values via casts), which
the source handles through the `default:` branch of its `switch`.
The enumerator declaration itself lives in `imagestructs.h`, which is not
part of the sources; the seven declared tags are taken from the `switch`
cases of `imagestructs.cpp`. -/
inductive ColorFormat where
  | Paletted1
  | Paletted2
  | Paletted4
  | Paletted8
  | RGB555
  | RGB565
  | RGB888
  | unknownTag (n : Nat)
deriving DecidableEq, Repr

/-- `Image::bitsPerPixelForFormat` from `src/imagestructs.cpp`: a `switch`
on the tag returning the bit width, throwing `"Bad color format"` on any
other tag (the `default:` branch).  The C++ `throw` is embedded as
`Except.error`. -/
def bitsPerPixelForFormat : ColorFormat → Except String Nat
  | .Paletted1 => .ok 1
  | .Paletted2 => .ok 2
  | .Paletted4 => .ok 4
  | .Paletted8 => .ok 8
  | .RGB555 => .ok 15
  | .RGB565 => .ok 16
  | .RGB888 => .ok 24
  | .unknownTag _ => .error "Bad color format"

/-! ## Processing options (`vid2h.cpp`, globals + `readArguments`)

`ProcessingOptions` (from `processingoptions.h`, not in the sources) is a
bag of command-line flags, each with an optional value.  The fields below
are exactly the options `vid2h.cpp` reads; boolean tests on an option in
the source (`if (options.x)`) become tests of the corresponding `Bool`
field, and `options.x.value` becomes the corresponding `...Value` field. -/

structure Options where
  blackWhite : Bool
  blackWhiteValue : Nat
  paletted : Bool
  palettedValue : Nat
  truecolor : Bool
  truecolorValue : Nat
  addColor0 : Bool
  addColor0Value : String
  moveColor0 : Bool
  moveColor0Value : String
  shiftIndices : Bool
  shiftIndicesValue : Nat
  pruneIndices : Bool
  sprites : Bool
  spritesFront : Nat
  tiles : Bool
  deltaImage : Bool
  delta8 : Bool
  delta16 : Bool
  dxt1 : Bool
  rle : Bool
  lz10 : Bool
  lz11 : Bool
  vram : Bool
  dryRun : Bool
deriving DecidableEq, Repr

/-- The number of selected format options,
`options.blackWhite + options.paletted + options.truecolor`
(`vid2h.cpp` lines 129 and 134). -/
def fmtCount (o : Options) : Nat :=
  (if o.blackWhite then 1 else 0) + (if o.paletted then 1 else 0)
    + (if o.truecolor then 1 else 0)

/-! ## Pipeline steps (`Image::Processing` as used by `vid2h.cpp`) -/

/-- The step kinds that `vid2h.cpp`'s `main` passes to
`Image::Processing::addStep`. -/
inductive StepType where
  | InputBlackWhite
  | InputPaletted
  | InputTruecolor
  | ReorderColors
  | AddColor0
  | MoveColor0
  | ShiftIndices
  | PruneIndices
  | PadColorMap
  | ConvertSprites
  | ConvertTiles
  | DeltaImage
  | CompressDXT1
  | ConvertDelta8
  | ConvertDelta16
  | CompressRLE
  | CompressLz10
  | CompressLz11
  | PadImageData
deriving DecidableEq, Repr

/-- A parameter passed to `addStep` in `vid2h.cpp`. -/
inductive Param where
  | nat (n : Nat)
  | flag (b : Bool)
  | colorMapRGB555
  | color (s : String)
deriving DecidableEq, Repr

/-- One pipeline step: kind, parameter list, and the `compresses` flag
(the third argument of `addStep`, defaulting to `false`). -/
structure Step where
  type : StepType
  params : List Param
  compresses : Bool
deriving DecidableEq, Repr

/-- An `if (b) processing.addStep(...)` block: a one-element segment when
the option is set, empty otherwise. -/
def optSeg (b : Bool) (s : Step) : List Step :=
  if b then [s] else []

/-- The input-conversion block of `main` (`vid2h.cpp` lines 232 to 244):
an `if / else if / else if` chain on the three format options. -/
def inputSeg (o : Options) : List Step :=
  if o.blackWhite then [⟨.InputBlackWhite, [.nat o.blackWhiteValue], false⟩]
  else if o.paletted then
    [⟨.InputPaletted, [.colorMapRGB555, .nat o.palettedValue], false⟩]
  else if o.truecolor then [⟨.InputTruecolor, [.nat o.truecolorValue], false⟩]
  else []

/-- The `if (options.pruneIndices) ... else ...` block
(`vid2h.cpp` lines 261 to 269): either `PruneIndices` followed by
`PadColorMap 16`, or `PadColorMap (paletted.value + (addColor0 ? 1 : 0))`. -/
def pruneSeg (o : Options) : List Step :=
  if o.pruneIndices then
    [⟨.PruneIndices, [], false⟩, ⟨.PadColorMap, [.nat 16], false⟩]
  else
    [⟨.PadColorMap,
      [.nat (o.palettedValue + (if o.addColor0 then 1 else 0))], false⟩]

/-- The palette conversion block of `main` (`vid2h.cpp` lines 246 to 270),
active only for `paletted`. -/
def palettedSeg (o : Options) : List Step :=
  if o.paletted then
    ⟨.ReorderColors, [], false⟩ ::
      (optSeg o.addColor0 ⟨.AddColor0, [.color o.addColor0Value], false⟩
        ++ optSeg o.moveColor0 ⟨.MoveColor0, [.color o.moveColor0Value], false⟩
        ++ optSeg o.shiftIndices
            ⟨.ShiftIndices, [.nat o.shiftIndicesValue], false⟩
        ++ pruneSeg o)
  else []

/-- The full processing pipeline that `main` builds for a given option set
(`vid2h.cpp` lines 230 to 307), in source append order. -/
def buildPipeline (o : Options) : List Step :=
  inputSeg o
    ++ palettedSeg o
    ++ optSeg o.sprites ⟨.ConvertSprites, [.nat o.spritesFront], false⟩
    ++ optSeg o.tiles ⟨.ConvertTiles, [], false⟩
    ++ optSeg o.deltaImage ⟨.DeltaImage, [], false⟩
    ++ optSeg o.dxt1 ⟨.CompressDXT1, [], true⟩
    ++ optSeg o.delta8 ⟨.ConvertDelta8, [], false⟩
    ++ optSeg o.delta16 ⟨.ConvertDelta16, [], false⟩
    ++ optSeg o.rle ⟨.CompressRLE, [.flag o.vram], true⟩
    ++ optSeg o.lz10 ⟨.CompressLz10, [.flag o.vram], true⟩
    ++ optSeg o.lz11 ⟨.CompressLz11, [.flag o.vram], true⟩
    ++ [⟨.PadImageData, [.nat 4], false⟩]

/-- Number of steps in a pipeline whose `compresses` flag is set. -/
def countCompresses (l : List Step) : Nat :=
  l.countP (fun s => s.compresses)

/-- Whether a step kind is one of the three input-conversion kinds. -/
def isInputStep : StepType → Bool
  | .InputBlackWhite => true
  | .InputPaletted => true
  | .InputTruecolor => true
  | _ => false

/-- Number of input-conversion steps in a pipeline. -/
def countInput (l : List Step) : Nat :=
  l.countP (fun s => isInputStep s.type)

/-- Whether a pipeline contains a step of the given kind. -/
def containsType (l : List Step) (t : StepType) : Bool :=
  l.any (fun s => s.type == t)

/-- Rank of a step kind in the canonical execution order, i.e. the position
of its `addStep` call in `vid2h.cpp` `main` (lines 230 to 307).  The three
input kinds share rank 0 because they come from one `if / else if` chain. -/
def rank : StepType → Nat
  | .InputBlackWhite => 0
  | .InputPaletted => 0
  | .InputTruecolor => 0
  | .ReorderColors => 1
  | .AddColor0 => 2
  | .MoveColor0 => 3
  | .ShiftIndices => 4
  | .PruneIndices => 5
  | .PadColorMap => 6
  | .ConvertSprites => 7
  | .ConvertTiles => 8
  | .DeltaImage => 9
  | .CompressDXT1 => 10
  | .ConvertDelta8 => 11
  | .ConvertDelta16 => 12
  | .CompressRLE => 13
  | .CompressLz10 => 14
  | .CompressLz11 => 15
  | .PadImageData => 16

/-- Strict canonical-order comparison between two steps. -/
def rankLt (a b : Step) : Prop :=
  rank a.type < rank b.type

/-- A list of steps is internally ordered by `rankLt` and all its ranks lie
in the interval `[lo, hi]`. -/
def SegOk (lo hi : Nat) (l : List Step) : Prop :=
  l.Pairwise rankLt ∧ ∀ s ∈ l, lo ≤ rank s.type ∧ rank s.type ≤ hi

/-! ## The host program run (`vid2h.cpp` `main` and `readArguments`)

The run is embedded as a pure function from the parsed options and an
environment (facts about the command line, the file system and the video
stream) to an exit code, an ordered list of observable effects and the
list of processed frames. -/

/-- The two standard streams. -/
inductive StdStream where
  | stdOut
  | stdErr
deriving DecidableEq, Repr

/-- An observable effect of the run: a print to one of the standard
streams, the attempt to open the binary output file, or a write of bytes
to it.  `writeOutput` models the `binFile.write()` call of `vid2h.cpp`
line 358 — which in the source is commented out (marked TODO), so no code
path of the embedding ever emits it. -/
inductive Effect where
  | print (s : StdStream) (msg : String)
  | openOutput (name : String)
  | writeOutput (bytes : List Nat)
deriving DecidableEq, Repr

/-- A raw RGB24 frame delivered by the video reader. -/
structure RawFrame where
  bytes : List Nat
deriving DecidableEq, Repr

/-- Modelled from the spec: `Image::Processing::processStream`
(`imageprocessing.h`, not in the sources) feeds one raw frame through
every pipeline step in insertion order and returns the transformed result.
The per-pixel semantics of the stages are outside the sources, so the
result is represented abstractly as the source frame tagged with the
ordered step list that was applied to it. -/
structure ProcessedImage where
  source : RawFrame
  appliedSteps : List Step
deriving DecidableEq, Repr

/-- Modelled from the spec: applying the pipeline to one raw frame. -/
def processStream (pipeline : List Step) (f : RawFrame) : ProcessedImage :=
  ⟨f, pipeline⟩

/-- Environment of one run: everything `main` observes besides the parsed
options.  Diagnostic message texts are modelled as fixed strings (the
source interpolates file names into some of them). -/
structure Env where
  argcGe3 : Bool
  helpRequested : Bool
  infileGiven : Bool
  infileExists : Bool
  inFileEmpty : Bool
  outFileEmpty : Bool
  outName : String
  videoOpenOk : Bool
  outFileOpenOk : Bool
  frames : List RawFrame
deriving DecidableEq, Repr

def msgInputNotExist : String := "Input file does not exist!"
def msgNeedFormat : String := "One format option is needed."
def msgSingleFormat : String := "Only a single format option is allowed."
def msgSingleLz : String := "Only a single LZ-compression option is allowed."
def msgUsage : String := "usage"
def msgNoInput : String := "No input file passed. Aborting."
def msgNoOutput : String := "No output file passed. Aborting."
def msgOpening : String := "Opening input"
def msgStreamInfo : String := "Video stream info"
def msgVideoOpenFailed : String := "Failed to open video file"
def msgApplying : String := "Applying processing"
def msgInputSize : String := "Input size"
def msgCompressedSize : String := "Compressed size"
def msgBitRate : String := "Bit rate"
def msgWriting : String := "Writing output file"
def msgOutOpenFailed : String := "Failed to open output for writing"
def msgDone : String := "Done"

/-- `readArguments` of `vid2h.cpp` (lines 60 to 150), restricted to its
observable outcome: whether it returns `true`, and the diagnostics it
prints on the way.  The checks appear in source order: help request, input
file existence (note: that diagnostic goes to `std::cout`, line 104), the
two format-count checks and the LZ exclusivity check (all three on
`std::cerr`). -/
def readArguments (o : Options) (env : Env) : Bool × List Effect :=
  if env.helpRequested then (false, [])
  else if env.infileGiven && !env.infileExists then
    (false, [.print .stdOut msgInputNotExist])
  else if fmtCount o == 0 then (false, [.print .stdErr msgNeedFormat])
  else if 1 < fmtCount o then (false, [.print .stdErr msgSingleFormat])
  else if o.lz10 && o.lz11 then (false, [.print .stdErr msgSingleLz])
  else (true, [])

/-- An option set passes the format and compression validation of
`readArguments`: exactly one format option, and not both LZ options. -/
def validOptions (o : Options) : Bool :=
  (fmtCount o == 1) && !(o.lz10 && o.lz11)

/-- Result of one run of the converter. -/
structure RunResult where
  exitCode : Nat
  effects : List Effect
  processed : List ProcessedImage
deriving DecidableEq, Repr

/-- `main` of `vid2h.cpp` (lines 191 to 381) as a pure function.  Branches
follow the source: argument check (exit 2), empty input/output name checks
(exit 1), video open (exit 1 on failure), pipeline construction and frame
processing, the statistics prints, and — unless `dryRun` is set — the
attempt to open `outname + ".bin"`; the `binFile.write()` call there is
commented out in the source (TODO), so the open is the last file effect.
Per-frame progress prints (wall-clock dependent) are elided. -/
def runMain (o : Options) (env : Env) : RunResult :=
  if !env.argcGe3 then
    ⟨2, [.print .stdOut msgUsage], []⟩
  else
    let ra := readArguments o env
    if !ra.1 then
      ⟨2, ra.2 ++ [.print .stdOut msgUsage], []⟩
    else if env.inFileEmpty then
      ⟨1, ra.2 ++ [.print .stdErr msgNoInput], []⟩
    else if env.outFileEmpty then
      ⟨1, ra.2 ++ [.print .stdErr msgNoOutput], []⟩
    else if !env.videoOpenOk then
      ⟨1, ra.2 ++ [.print .stdOut msgOpening, .print .stdErr msgVideoOpenFailed], []⟩
    else
      let pipeline := buildPipeline o
      let images := env.frames.map (processStream pipeline)
      let pre : List Effect := ra.2 ++
        [.print .stdOut msgOpening, .print .stdOut msgStreamInfo,
         .print .stdOut msgApplying, .print .stdOut msgInputSize,
         .print .stdOut msgCompressedSize, .print .stdOut msgBitRate]
      if o.dryRun then
        ⟨0, pre ++ [.print .stdOut msgDone], images⟩
      else if env.outFileOpenOk then
        ⟨0, pre ++ [.openOutput (env.outName ++ ".bin"),
                    .print .stdOut msgWriting, .print .stdOut msgDone], images⟩
      else
        ⟨1, pre ++ [.openOutput (env.outName ++ ".bin"),
                    .print .stdErr msgOutOpenFailed], images⟩

/-! ## The device decoder startup (`gba/video.cpp`) -/

/-- Size in bytes of the statically reserved scratch region,
`sizeof(ScratchPad)` for `uint32_t ScratchPad[19208 * 2 / 4]`
(`gba/video.cpp` line 25). -/
def scratchPadSizeBytes : Nat := (19208 * 2 / 4) * 4

/-- The header fields the decoder reads, as printed by `gba/video.cpp`
lines 40 to 45. -/
structure GbaVideoInfo where
  nrOfFrames : Nat
  fps : Nat
  width : Nat
  height : Nat
  bitsPerPixel : Nat
  colorMapEntries : Nat
  bitsInColorMap : Nat
  maxMemoryNeeded : Nat
deriving DecidableEq, Repr

/-- Modelled from the spec: `Video::GetInfo` (`videoreader.h` of the GBA
side, not in the sources) reads the fixed-size header once, yielding the
fields in their header order (frame count, fps, width, height, bits per
pixel, color-map entry count, bits per color-map entry, maximum scratch
memory needed; the stage flags follow and are not used at startup). -/
def GetInfo (hdr : List Nat) : GbaVideoInfo :=
  { nrOfFrames := hdr.getD 0 0
    fps := hdr.getD 1 0
    width := hdr.getD 2 0
    height := hdr.getD 3 0
    bitsPerPixel := hdr.getD 4 0
    colorMapEntries := hdr.getD 5 0
    bitsInColorMap := hdr.getD 6 0
    maxMemoryNeeded := hdr.getD 7 0 }

/-- An observable action of the decoder `main`. -/
inductive GbaAction where
  | printInfo (info : GbaVideoInfo)
  | waitForKeyA
  | setDisplayMode
  | setFrameTimer (interval : Nat)
  | decodeFrame (scratchSizeBytes : Nat)
  | fatalError
deriving DecidableEq, Repr

/-- `main` of `gba/video.cpp` (lines 27 to 87) as an action trace: parse
the header, print the info (including `maxMemoryNeeded`), wait for the A
key, switch the display mode, program the frame timer to
`65536 - 65536 / fps`, then loop calling
`Video::decode(VRAM, ScratchPad, sizeof(ScratchPad), ...)`.  The loop is
infinite; `framesToRun` is the number of iterations observed.
`GbaAction.fatalError` exists to express a fatal-configuration outcome; no
code path of the source produces it. -/
def gbaMainActions (hdr : List Nat) (framesToRun : Nat) : List GbaAction :=
  let info := GetInfo hdr
  [.printInfo info, .waitForKeyA, .setDisplayMode,
   .setFrameTimer (65536 - 65536 / info.fps)]
    ++ List.replicate framesToRun (GbaAction.decodeFrame scratchPadSizeBytes)

/-! ## Concrete instances used by counterexamples and witnesses -/

/-- A paletted configuration that selects both `rle` and `lz10`. -/
def cfgRleLz10 : Options :=
  { blackWhite := false, blackWhiteValue := 0
    paletted := true, palettedValue := 16
    truecolor := false, truecolorValue := 0
    addColor0 := false, addColor0Value := ""
    moveColor0 := false, moveColor0Value := ""
    shiftIndices := false, shiftIndicesValue := 0
    pruneIndices := false
    sprites := false, spritesFront := 0
    tiles := false, deltaImage := false, delta8 := false, delta16 := false
    dxt1 := false, rle := true, lz10 := true, lz11 := false
    vram := false, dryRun := false }

/-- A plain truecolor configuration, no optional stages, not a dry run. -/
def cfgTruecolorPlain : Options :=
  { cfgRleLz10 with
    paletted := false, palettedValue := 0,
    truecolor := true, truecolorValue := 16, rle := false, lz10 := false }

/-- A configuration selecting no format option at all. -/
def cfgNoFormat : Options :=
  { cfgTruecolorPlain with truecolor := false, truecolorValue := 0 }

/-- A configuration selecting two format options at once. -/
def cfgTwoFormats : Options :=
  { cfgTruecolorPlain with blackWhite := true }

/-- A truecolor configuration with `dxt1` and `rle` selected. -/
def cfgDxtRle : Options :=
  { cfgTruecolorPlain with dxt1 := true, rle := true }

/-- A paletted configuration with `pruneIndices` selected. -/
def cfgPrune : Options :=
  { cfgRleLz10 with
    rle := false, lz10 := false, pruneIndices := true,
    addColor0 := true, addColor0Value := "#000000" }

/-- A truecolor dry-run configuration. -/
def cfgDry : Options :=
  { cfgTruecolorPlain with dryRun := true }

/-- A benign environment: enough arguments, no help request, existing
input file, resolved names, video opens, output file opens. -/
def goodEnv : Env :=
  { argcGe3 := true, helpRequested := false
    infileGiven := true, infileExists := true
    inFileEmpty := false, outFileEmpty := false, outName := "out"
    videoOpenOk := true, outFileOpenOk := true, frames := [] }

/-- The benign environment except that the input file does not exist. -/
def envNoInfile : Env := { goodEnv with infileExists := false }

/-- The benign environment carrying two raw frames. -/
def envWithFrames : Env :=
  { goodEnv with frames := [⟨[0, 1, 2]⟩, ⟨[3, 4, 5]⟩] }

/-- A header whose `maxScratchMemoryNeeded` field (index 7) exceeds the
38416-byte scratch reservation. -/
def badHdr : List Nat := [10, 30, 160, 128, 16, 0, 0, 38417]

/-! ## Helper lemmas -/

theorem countP_optSeg (p : Step → Bool) (b : Bool) (s : Step) :
    (optSeg b s).countP p = if b then (if p s then 1 else 0) else 0 := by
  cases b <;> simp [optSeg, List.countP_cons]

theorem any_optSeg (p : Step → Bool) (b : Bool) (s : Step) :
    (optSeg b s).any p = (b && p s) := by
  cases b <;> simp [optSeg]

theorem infile_cond_false (env : Env)
    (hg : env.infileGiven = true → env.infileExists = true) :
    (env.infileGiven && !env.infileExists) = false := by
  cases hgiven : env.infileGiven
  · simp
  · simp [hg hgiven]

theorem readArguments_fst (o : Options) (env : Env)
    (hh : env.helpRequested = false)
    (hg : env.infileGiven = true → env.infileExists = true) :
    (readArguments o env).1 = validOptions o := by
  have hc := infile_cond_false env hg
  unfold readArguments validOptions
  split_ifs with h0 h1 h2 h3 h4
  · simp [hh] at h0
  · simp [hc] at h1
  · simp only [beq_iff_eq] at h2
    simp [h2]
  · simp only [beq_iff_eq] at h2
    have hne : fmtCount o ≠ 1 := by omega
    simp [hne]
  · rw [h4]
    simp
  · simp only [beq_iff_eq] at h2
    have heq : fmtCount o = 1 := by omega
    have h5 : (o.lz10 && o.lz11) = false := by
      cases hl : (o.lz10 && o.lz11)
      · rfl
      · exact absurd hl h4
    simp [heq, h5]

theorem validOptions_fmtCount (o : Options) (hv : validOptions o = true) :
    fmtCount o = 1 := by
  unfold validOptions at hv
  cases hfc : (fmtCount o == 1)
  · rw [hfc] at hv
    simp at hv
  · exact beq_iff_eq.mp hfc

theorem validOptions_lz (o : Options) (hv : validOptions o = true) :
    (o.lz10 && o.lz11) = false := by
  unfold validOptions at hv
  cases hlz : (o.lz10 && o.lz11)
  · rfl
  · rw [hlz] at hv
    simp at hv

theorem readArguments_accepted (o : Options) (env : Env)
    (hh : env.helpRequested = false)
    (hg : env.infileGiven = true → env.infileExists = true)
    (hv : validOptions o = true) :
    readArguments o env = (true, []) := by
  have h1 := validOptions_fmtCount o hv
  have h2 := validOptions_lz o hv
  unfold readArguments
  rw [hh, infile_cond_false env hg]
  simp [h1, h2]

theorem countP_compresses_inputSeg (o : Options) :
    (inputSeg o).countP (fun s => s.compresses) = 0 := by
  unfold inputSeg
  split_ifs <;> simp

theorem countP_compresses_palettedSeg (o : Options) :
    (palettedSeg o).countP (fun s => s.compresses) = 0 := by
  unfold palettedSeg pruneSeg optSeg
  split_ifs <;> simp [List.countP_cons, List.countP_append]

theorem countInput_inputSeg (o : Options) :
    (inputSeg o).countP (fun s => isInputStep s.type)
      = if o.blackWhite || o.paletted || o.truecolor then 1 else 0 := by
  unfold inputSeg
  cases o.blackWhite <;> cases o.paletted <;> cases o.truecolor <;>
    simp [isInputStep]

theorem countInput_palettedSeg (o : Options) :
    (palettedSeg o).countP (fun s => isInputStep s.type) = 0 := by
  unfold palettedSeg pruneSeg optSeg
  split_ifs <;> simp [List.countP_cons, List.countP_append, isInputStep]

theorem countCompresses_buildPipeline (o : Options) :
    countCompresses (buildPipeline o)
      = (if o.dxt1 then 1 else 0) + (if o.rle then 1 else 0)
        + (if o.lz10 then 1 else 0) + (if o.lz11 then 1 else 0) := by
  unfold countCompresses buildPipeline
  simp only [List.countP_append, countP_optSeg, countP_compresses_inputSeg,
    countP_compresses_palettedSeg, List.countP_cons]
  simp

theorem countInput_buildPipeline (o : Options) :
    countInput (buildPipeline o)
      = if o.blackWhite || o.paletted || o.truecolor then 1 else 0 := by
  unfold countInput buildPipeline
  simp only [List.countP_append, countP_optSeg, countInput_inputSeg,
    countInput_palettedSeg, List.countP_cons]
  simp [isInputStep]

/-! ## Canonical ordering machinery -/

theorem segOk_nil (lo hi : Nat) : SegOk lo hi [] :=
  ⟨List.Pairwise.nil, by simp⟩

theorem segOk_singleton (s : Step) (r : Nat) (h : rank s.type = r) :
    SegOk r r [s] := by
  refine ⟨List.pairwise_singleton _ _, ?_⟩
  intro x hx
  rw [List.mem_singleton] at hx
  subst hx
  simp [h]

theorem segOk_optSeg (b : Bool) (s : Step) (r : Nat) (h : rank s.type = r) :
    SegOk r r (optSeg b s) := by
  cases b
  · exact segOk_nil r r
  · exact segOk_singleton s r h

theorem segOk_append {lo₁ hi₁ lo₂ hi₂ : Nat} {l₁ l₂ : List Step}
    (h₁ : SegOk lo₁ hi₁ l₁) (h₂ : SegOk lo₂ hi₂ l₂)
    (hlt : hi₁ < lo₂) (hlo : lo₁ ≤ lo₂) (hhi : hi₁ ≤ hi₂) :
    SegOk lo₁ hi₂ (l₁ ++ l₂) := by
  obtain ⟨p₁, b₁⟩ := h₁
  obtain ⟨p₂, b₂⟩ := h₂
  constructor
  · rw [List.pairwise_append]
    exact ⟨p₁, p₂, fun a ha b hb =>
      lt_of_le_of_lt (b₁ a ha).2 (lt_of_lt_of_le hlt (b₂ b hb).1)⟩
  · intro s hs
    rcases List.mem_append.mp hs with h | h
    · exact ⟨(b₁ s h).1, le_trans (b₁ s h).2 hhi⟩
    · exact ⟨le_trans hlo (b₂ s h).1, (b₂ s h).2⟩

theorem segOk_cons {lo hi r : Nat} (s : Step) {l : List Step}
    (h : SegOk lo hi l) (hr : rank s.type = r) (h1 : r < lo) (h2 : r ≤ hi) :
    SegOk r hi (s :: l) := by
  obtain ⟨p, b⟩ := h
  constructor
  · refine List.Pairwise.cons ?_ p
    intro x hx
    unfold rankLt
    rw [hr]
    exact lt_of_lt_of_le h1 (b x hx).1
  · intro x hx
    rcases List.mem_cons.mp hx with h | h
    · subst h
      exact ⟨by simp [hr], by simp [hr, h2]⟩
    · exact ⟨le_trans (le_of_lt h1) (b x h).1, (b x h).2⟩

theorem segOk_inputSeg (o : Options) : SegOk 0 0 (inputSeg o) := by
  unfold inputSeg
  split_ifs
  · exact segOk_singleton _ 0 rfl
  · exact segOk_singleton _ 0 rfl
  · exact segOk_singleton _ 0 rfl
  · exact segOk_nil 0 0

theorem segOk_pruneSeg (o : Options) : SegOk 5 6 (pruneSeg o) := by
  unfold pruneSeg
  split_ifs <;>
    exact ⟨by simp [List.pairwise_cons, rankLt, rank], by simp [rank]⟩

theorem segOk_palettedSeg (o : Options) : SegOk 1 6 (palettedSeg o) := by
  unfold palettedSeg
  split_ifs
  · have hA := segOk_optSeg o.addColor0
      ⟨.AddColor0, [.color o.addColor0Value], false⟩ 2 rfl
    have hB := segOk_optSeg o.moveColor0
      ⟨.MoveColor0, [.color o.moveColor0Value], false⟩ 3 rfl
    have hC := segOk_optSeg o.shiftIndices
      ⟨.ShiftIndices, [.nat o.shiftIndicesValue], false⟩ 4 rfl
    have hP := segOk_pruneSeg o
    have hAB := segOk_append hA hB (by omega) (by omega) (by omega)
    have hABC := segOk_append hAB hC (by omega) (by omega) (by omega)
    have hABCP := segOk_append hABC hP (by omega) (by omega) (by omega)
    exact segOk_cons _ hABCP rfl (by omega) (by omega)
  · exact segOk_nil 1 6

theorem segOk_buildPipeline (o : Options) : SegOk 0 16 (buildPipeline o) := by
  unfold buildPipeline
  have h0 := segOk_inputSeg o
  have h1 := segOk_palettedSeg o
  have h2 := segOk_optSeg o.sprites
    ⟨.ConvertSprites, [.nat o.spritesFront], false⟩ 7 rfl
  have h3 := segOk_optSeg o.tiles ⟨.ConvertTiles, [], false⟩ 8 rfl
  have h4 := segOk_optSeg o.deltaImage ⟨.DeltaImage, [], false⟩ 9 rfl
  have h5 := segOk_optSeg o.dxt1 ⟨.CompressDXT1, [], true⟩ 10 rfl
  have h6 := segOk_optSeg o.delta8 ⟨.ConvertDelta8, [], false⟩ 11 rfl
  have h7 := segOk_optSeg o.delta16 ⟨.ConvertDelta16, [], false⟩ 12 rfl
  have h8 := segOk_optSeg o.rle ⟨.CompressRLE, [.flag o.vram], true⟩ 13 rfl
  have h9 := segOk_optSeg o.lz10 ⟨.CompressLz10, [.flag o.vram], true⟩ 14 rfl
  have h10 := segOk_optSeg o.lz11 ⟨.CompressLz11, [.flag o.vram], true⟩ 15 rfl
  have h11 := segOk_singleton ⟨.PadImageData, [.nat 4], false⟩ 16 rfl
  have a1 := segOk_append h0 h1 (by omega) (by omega) (by omega)
  have a2 := segOk_append a1 h2 (by omega) (by omega) (by omega)
  have a3 := segOk_append a2 h3 (by omega) (by omega) (by omega)
  have a4 := segOk_append a3 h4 (by omega) (by omega) (by omega)
  have a5 := segOk_append a4 h5 (by omega) (by omega) (by omega)
  have a6 := segOk_append a5 h6 (by omega) (by omega) (by omega)
  have a7 := segOk_append a6 h7 (by omega) (by omega) (by omega)
  have a8 := segOk_append a7 h8 (by omega) (by omega) (by omega)
  have a9 := segOk_append a8 h9 (by omega) (by omega) (by omega)
  have a10 := segOk_append a9 h10 (by omega) (by omega) (by omega)
  exact segOk_append a10 h11 (by omega) (by omega) (by omega)

theorem inputSeg_of_one_format (o : Options) (h : fmtCount o = 1) :
    ∃ s, inputSeg o = [s] ∧ isInputStep s.type = true := by
  unfold inputSeg
  cases hbw : o.blackWhite <;> cases hp : o.paletted <;>
    cases htc : o.truecolor <;> simp_all [fmtCount, isInputStep]

/-! ## Claim theorems -/

/-- Claim C7: `bitsPerPixelForFormat` returns 1, 2, 4, 8, 15, 16, 24 for
Paletted1, Paletted2, Paletted4, Paletted8, RGB555, RGB565, RGB888
respectively, and raises an invalid-format error for every tag outside
this set instead of returning a coerced value. -/
theorem bitsPerPixelForFormat_spec :
    bitsPerPixelForFormat .Paletted1 = .ok 1
    ∧ bitsPerPixelForFormat .Paletted2 = .ok 2
    ∧ bitsPerPixelForFormat .Paletted4 = .ok 4
    ∧ bitsPerPixelForFormat .Paletted8 = .ok 8
    ∧ bitsPerPixelForFormat .RGB555 = .ok 15
    ∧ bitsPerPixelForFormat .RGB565 = .ok 16
    ∧ bitsPerPixelForFormat .RGB888 = .ok 24
    ∧ ∀ n : Nat, bitsPerPixelForFormat (.unknownTag n)
        = .error "Bad color format" :=
  ⟨rfl, rfl, rfl, rfl, rfl, rfl, rfl, fun _ => rfl⟩

/-- Claim C2 (code-bug evaluation): a configuration selecting both `rle`
and `lz10` passes argument validation — only the `lz10`/`lz11` pair is
rejected — and the built pipeline then contains both `CompressRLE` and
`CompressLz10`, contradicting the mutual exclusion the claim (and the
program's own usage text) states. -/
theorem rle_lz10_both_accepted_and_built :
    validOptions cfgRleLz10 = true
    ∧ (readArguments cfgRleLz10 goodEnv).1 = true
    ∧ containsType (buildPipeline cfgRleLz10) .CompressRLE = true
    ∧ containsType (buildPipeline cfgRleLz10) .CompressLz10 = true := by
  decide

/-- Claim C3 counterexample: on a header whose `maxScratchMemoryNeeded`
field exceeds the 38416-byte scratch reservation, the decoder startup
performs no validation: it still decodes frames (passing the reservation
size through) and signals no fatal error. -/
theorem gba_no_scratch_validation_counterexample :
    scratchPadSizeBytes < (GetInfo badHdr).maxMemoryNeeded
    ∧ GbaAction.decodeFrame scratchPadSizeBytes ∈ gbaMainActions badHdr 1
    ∧ GbaAction.fatalError ∉ gbaMainActions badHdr 1 := by
  decide

/-- Claim C3 (amended): the decoder reads the header once at startup and
displays `maxScratchMemoryNeeded`, but does not validate it against the
statically reserved scratch region; for every header it proceeds into the
decode loop, passing the reservation size to the per-frame decode routine,
and never signals a fatal configuration error. -/
theorem gba_startup_proceeds_regardless_of_scratch
    (hdr : List Nat) (n : Nat) :
    GbaAction.printInfo (GetInfo hdr) ∈ gbaMainActions hdr (n + 1)
    ∧ GbaAction.decodeFrame scratchPadSizeBytes ∈ gbaMainActions hdr (n + 1)
    ∧ GbaAction.fatalError ∉ gbaMainActions hdr (n + 1) := by
  unfold gbaMainActions
  refine ⟨by simp, ?_, ?_⟩
  · simp [List.mem_replicate]
  · simp [List.mem_replicate]

/-- Claim C4 counterexample: the accepted configuration
truecolor + dxt1 + rle yields a pipeline with two steps whose
`compresses` flag is true (CompressDXT1 and CompressRLE), refuting
"at most one step has `compresses=true`". -/
theorem two_compress_steps_counterexample :
    validOptions cfgDxtRle = true
    ∧ countCompresses (buildPipeline cfgDxtRle) = 2 := by
  decide

/-- Claim C4 (amended): for every accepted configuration the pipeline
contains one `compresses=true` step per selected option among dxt1, rle,
lz10, lz11 — hence at most three such steps (dxt1, rle, and one LZ
variant), not at most one. -/
theorem compress_flag_count_amended (o : Options)
    (h : validOptions o = true) :
    countCompresses (buildPipeline o)
      = (if o.dxt1 then 1 else 0) + (if o.rle then 1 else 0)
        + (if o.lz10 then 1 else 0) + (if o.lz11 then 1 else 0)
    ∧ countCompresses (buildPipeline o) ≤ 3 := by
  have hc := countCompresses_buildPipeline o
  have hlz := validOptions_lz o h
  refine ⟨hc, ?_⟩
  rw [hc]
  cases h10 : o.lz10 <;> cases h11 : o.lz11 <;>
    simp_all <;> split_ifs <;> omega

/-- Witness for `compress_flag_count_amended` at the concrete accepted
configuration truecolor + dxt1 + rle. -/
theorem compress_flag_count_amended_witness :
    countCompresses (buildPipeline cfgDxtRle)
      = (if cfgDxtRle.dxt1 then 1 else 0) + (if cfgDxtRle.rle then 1 else 0)
        + (if cfgDxtRle.lz10 then 1 else 0)
        + (if cfgDxtRle.lz11 then 1 else 0)
    ∧ countCompresses (buildPipeline cfgDxtRle) ≤ 3 :=
  compress_flag_count_amended cfgDxtRle (by decide)

/-- Claim C5: for every accepted configuration the pipeline steps appear
in the fixed canonical source order — each step's canonical `rank`
(input 0, reorder 1, addColor0 2, moveColor0 3, shiftIndices 4,
pruneIndices 5, padColorMap 6, sprites 7, tiles 8, deltaImage 9, dxt1 10,
delta8 11, delta16 12, rle 13, lz10 14, lz11 15, pad 16) strictly
increases along the list; the first step is the input conversion and the
last is `PadImageData`. -/
theorem pipeline_canonical_order (o : Options)
    (h : validOptions o = true) :
    List.Pairwise rankLt (buildPipeline o)
    ∧ (∃ s, (buildPipeline o).head? = some s ∧ isInputStep s.type = true)
    ∧ (buildPipeline o).getLast?
        = some ⟨.PadImageData, [.nat 4], false⟩ := by
  refine ⟨(segOk_buildPipeline o).1, ?_, ?_⟩
  · obtain ⟨s, hs, hin⟩ :=
      inputSeg_of_one_format o (validOptions_fmtCount o h)
    refine ⟨s, ?_, hin⟩
    unfold buildPipeline
    rw [hs]
    simp [List.append_assoc]
  · unfold buildPipeline
    exact List.getLast?_concat _

/-- Witness for `pipeline_canonical_order` at the concrete accepted
configuration paletted + pruneIndices + addColor0. -/
theorem pipeline_canonical_order_witness :
    List.Pairwise rankLt (buildPipeline cfgPrune)
    ∧ (∃ s, (buildPipeline cfgPrune).head? = some s
        ∧ isInputStep s.type = true)
    ∧ (buildPipeline cfgPrune).getLast?
        = some ⟨.PadImageData, [.nat 4], false⟩ :=
  pipeline_canonical_order cfgPrune (by decide)

/-- Claim C6: with no format option selected, or more than one, argument
validation fails with a diagnostic on the error stream and the process
exits non-zero (exit code 2); every accepted configuration gets exactly
one input-conversion step in its pipeline. -/
theorem exactly_one_format_validation (o : Options) (env : Env)
    (ha : env.argcGe3 = true) (hh : env.helpRequested = false)
    (hg : env.infileGiven = true → env.infileExists = true) :
    (fmtCount o = 0 → (runMain o env).exitCode = 2
      ∧ Effect.print .stdErr msgNeedFormat ∈ (runMain o env).effects)
    ∧ (1 < fmtCount o → (runMain o env).exitCode = 2
      ∧ Effect.print .stdErr msgSingleFormat ∈ (runMain o env).effects)
    ∧ (validOptions o = true → countInput (buildPipeline o) = 1) := by
  refine ⟨?_, ?_, ?_⟩
  · intro h0
    have hra : readArguments o env
        = (false, [Effect.print .stdErr msgNeedFormat]) := by
      unfold readArguments
      rw [hh, infile_cond_false env hg]
      simp [h0]
    constructor <;> simp [runMain, ha, hra]
  · intro h1
    have hra : readArguments o env
        = (false, [Effect.print .stdErr msgSingleFormat]) := by
      unfold readArguments
      rw [hh, infile_cond_false env hg]
      have h0 : fmtCount o ≠ 0 := by omega
      simp [h0, h1]
    constructor <;> simp [runMain, ha, hra]
  · intro hv
    have h1 := validOptions_fmtCount o hv
    rw [countInput_buildPipeline o]
    cases hbw : o.blackWhite <;> cases hp : o.paletted <;>
      cases htc : o.truecolor <;> simp_all [fmtCount]

/-- Witness for `exactly_one_format_validation` at a configuration that
selects two format options. -/
theorem exactly_one_format_validation_witness :
    (runMain cfgTwoFormats goodEnv).exitCode = 2
    ∧ Effect.print .stdErr msgSingleFormat
        ∈ (runMain cfgTwoFormats goodEnv).effects := by
  have h := exactly_one_format_validation cfgTwoFormats goodEnv rfl rfl
    (fun _ => rfl)
  exact h.2.1 (by decide)

/-- Claim C8: in every accepted paletted configuration with `pruneIndices`
the pipeline contains `PruneIndices` immediately followed by
`PadColorMap 16`; without `pruneIndices` it contains no `PruneIndices`
step and instead a `PadColorMap` padding to the selected palette size
plus one if `addColor0` is set. -/
theorem prune_pad_pipeline (o : Options) (h : validOptions o = true)
    (hp : o.paletted = true) :
    (o.pruneIndices = true →
      ∃ l₁ l₂, buildPipeline o
        = l₁ ++ ([⟨.PruneIndices, [], false⟩,
                  ⟨.PadColorMap, [.nat 16], false⟩] ++ l₂))
    ∧ (o.pruneIndices = false →
      (⟨.PadColorMap,
        [.nat (o.palettedValue + (if o.addColor0 then 1 else 0))],
        false⟩ : Step) ∈ buildPipeline o
      ∧ containsType (buildPipeline o) .PruneIndices = false) := by
  constructor
  · intro hpr
    refine ⟨inputSeg o
      ++ (⟨.ReorderColors, [], false⟩ ::
        (optSeg o.addColor0 ⟨.AddColor0, [.color o.addColor0Value], false⟩
          ++ optSeg o.moveColor0
              ⟨.MoveColor0, [.color o.moveColor0Value], false⟩
          ++ optSeg o.shiftIndices
              ⟨.ShiftIndices, [.nat o.shiftIndicesValue], false⟩)),
      optSeg o.sprites ⟨.ConvertSprites, [.nat o.spritesFront], false⟩
        ++ optSeg o.tiles ⟨.ConvertTiles, [], false⟩
        ++ optSeg o.deltaImage ⟨.DeltaImage, [], false⟩
        ++ optSeg o.dxt1 ⟨.CompressDXT1, [], true⟩
        ++ optSeg o.delta8 ⟨.ConvertDelta8, [], false⟩
        ++ optSeg o.delta16 ⟨.ConvertDelta16, [], false⟩
        ++ optSeg o.rle ⟨.CompressRLE, [.flag o.vram], true⟩
        ++ optSeg o.lz10 ⟨.CompressLz10, [.flag o.vram], true⟩
        ++ optSeg o.lz11 ⟨.CompressLz11, [.flag o.vram], true⟩
        ++ [⟨.PadImageData, [.nat 4], false⟩], ?_⟩
    simp [buildPipeline, palettedSeg, pruneSeg, hp, hpr, List.append_assoc]
  · intro hpr
    constructor
    · simp [buildPipeline, palettedSeg, pruneSeg, hp, hpr]
    · simp [containsType, buildPipeline, List.any_append, any_optSeg,
        palettedSeg, pruneSeg, hp, hpr, inputSeg]
      split_ifs <;> simp

/-- Witness for `prune_pad_pipeline` at the concrete accepted paletted
configuration with `pruneIndices` set. -/
theorem prune_pad_pipeline_witness :
    ∃ l₁ l₂, buildPipeline cfgPrune
      = l₁ ++ ([⟨.PruneIndices, [], false⟩,
                ⟨.PadColorMap, [.nat 16], false⟩] ++ l₂) :=
  (prune_pad_pipeline cfgPrune (by decide) rfl).1 rfl

theorem writeOutput_not_in_readArguments (o : Options) (env : Env)
    (b : List Nat) : Effect.writeOutput b ∉ (readArguments o env).2 := by
  unfold readArguments
  split_ifs <;> simp

/-- Claim C1 (code-bug evaluation): no run of the converter ever emits a
`writeOutput` effect — the `binFile.write()` call is commented out in the
source — even though a non-dry run with an accepted configuration opens
the output file and exits successfully. -/
theorem vid2h_never_writes_output_bytes :
    (∀ (o : Options) (env : Env) (b : List Nat),
      Effect.writeOutput b ∉ (runMain o env).effects)
    ∧ (runMain cfgTruecolorPlain goodEnv).exitCode = 0
    ∧ Effect.openOutput "out.bin"
        ∈ (runMain cfgTruecolorPlain goodEnv).effects := by
  refine ⟨?_, by decide, by decide⟩
  intro o env b
  have hra := writeOutput_not_in_readArguments o env b
  simp only [runMain]
  split_ifs <;> simp_all

/-- Claim C9 counterexample: when the input file does not exist the
process exits non-zero, but its diagnostic goes to standard output — no
message is printed to the error stream at all — refuting "all cases print
a diagnostic to the error stream". -/
theorem infile_diag_stdout_counterexample :
    (runMain cfgTruecolorPlain envNoInfile).exitCode = 2
    ∧ Effect.print .stdOut msgInputNotExist
        ∈ (runMain cfgTruecolorPlain envNoInfile).effects
    ∧ ∀ m : String, Effect.print .stdErr m
        ∉ (runMain cfgTruecolorPlain envNoInfile).effects := by
  have heff : (runMain cfgTruecolorPlain envNoInfile).effects
      = [Effect.print .stdOut msgInputNotExist,
         Effect.print .stdOut msgUsage] := by decide
  refine ⟨by decide, by decide, ?_⟩
  intro m
  rw [heff]
  simp

/-- Claim C9 (amended): every unrecoverable condition (non-existent input
file, no format option, conflicting format options, conflicting LZ
options, video open failure, output-file open failure) exits with a
non-zero status after printing a diagnostic; the diagnostic goes to the
error stream in every case except the non-existent input file, whose
message goes to standard output. -/
theorem error_exit_diagnostics_amended (o : Options) (env : Env)
    (ha : env.argcGe3 = true) (hh : env.helpRequested = false) :
    (env.infileGiven = true → env.infileExists = false →
      (runMain o env).exitCode ≠ 0
      ∧ Effect.print .stdOut msgInputNotExist ∈ (runMain o env).effects)
    ∧ ((env.infileGiven = true → env.infileExists = true) →
        fmtCount o = 0 →
      (runMain o env).exitCode ≠ 0
      ∧ Effect.print .stdErr msgNeedFormat ∈ (runMain o env).effects)
    ∧ ((env.infileGiven = true → env.infileExists = true) →
        1 < fmtCount o →
      (runMain o env).exitCode ≠ 0
      ∧ Effect.print .stdErr msgSingleFormat ∈ (runMain o env).effects)
    ∧ ((env.infileGiven = true → env.infileExists = true) →
        o.lz10 = true → o.lz11 = true → fmtCount o = 1 →
      (runMain o env).exitCode ≠ 0
      ∧ Effect.print .stdErr msgSingleLz ∈ (runMain o env).effects)
    ∧ ((env.infileGiven = true → env.infileExists = true) →
        validOptions o = true → env.inFileEmpty = false →
        env.outFileEmpty = false → env.videoOpenOk = false →
      (runMain o env).exitCode ≠ 0
      ∧ Effect.print .stdErr msgVideoOpenFailed ∈ (runMain o env).effects)
    ∧ ((env.infileGiven = true → env.infileExists = true) →
        validOptions o = true → env.inFileEmpty = false →
        env.outFileEmpty = false → env.videoOpenOk = true →
        o.dryRun = false → env.outFileOpenOk = false →
      (runMain o env).exitCode ≠ 0
      ∧ Effect.print .stdErr msgOutOpenFailed ∈ (runMain o env).effects) := by
  refine ⟨?_, ?_, ?_, ?_, ?_, ?_⟩
  · intro hgiven hnex
    have hra : readArguments o env
        = (false, [Effect.print .stdOut msgInputNotExist]) := by
      unfold readArguments
      simp [hh, hgiven, hnex]
    constructor <;> simp [runMain, ha, hra]
  · intro hg h0
    have hra : readArguments o env
        = (false, [Effect.print .stdErr msgNeedFormat]) := by
      unfold readArguments
      rw [hh, infile_cond_false env hg]
      simp [h0]
    constructor <;> simp [runMain, ha, hra]
  · intro hg h1
    have hra : readArguments o env
        = (false, [Effect.print .stdErr msgSingleFormat]) := by
      unfold readArguments
      rw [hh, infile_cond_false env hg]
      have h0 : fmtCount o ≠ 0 := by omega
      simp [h0, h1]
    constructor <;> simp [runMain, ha, hra]
  · intro hg h10 h11 hf
    have hra : readArguments o env
        = (false, [Effect.print .stdErr msgSingleLz]) := by
      unfold readArguments
      rw [hh, infile_cond_false env hg]
      simp [hf, h10, h11]
    constructor <;> simp [runMain, ha, hra]
  · intro hg hv hi hout hvo
    have hra := readArguments_accepted o env hh hg hv
    constructor <;> simp [runMain, ha, hra, hi, hout, hvo]
  · intro hg hv hi hout hvo hd hoo
    have hra := readArguments_accepted o env hh hg hv
    constructor <;> simp [runMain, ha, hra, hi, hout, hvo, hd, hoo]

/-- Witness for `error_exit_diagnostics_amended`: the no-format condition
at a concrete input exits non-zero with an error-stream diagnostic. -/
theorem error_exit_diagnostics_amended_witness :
    (runMain cfgNoFormat goodEnv).exitCode ≠ 0
    ∧ Effect.print .stdErr msgNeedFormat
        ∈ (runMain cfgNoFormat goodEnv).effects := by
  have h := error_exit_diagnostics_amended cfgNoFormat goodEnv rfl rfl
  exact h.2.1 (fun _ => rfl) (by decide)

/-- Claim C10: with `dryRun` set, an accepted run opens and writes no
output file — the filesystem effects are absent — while every frame is
still processed through the pipeline, the size and bit-rate statistics
are still printed, and the run succeeds. -/
theorem dry_run_no_output (o : Options) (env : Env)
    (hd : o.dryRun = true) (hv : validOptions o = true)
    (ha : env.argcGe3 = true) (hh : env.helpRequested = false)
    (hg : env.infileGiven = true → env.infileExists = true)
    (hi : env.inFileEmpty = false) (ho : env.outFileEmpty = false)
    (hvo : env.videoOpenOk = true) :
    (∀ n : String, Effect.openOutput n ∉ (runMain o env).effects)
    ∧ (∀ b : List Nat, Effect.writeOutput b ∉ (runMain o env).effects)
    ∧ (runMain o env).processed
        = env.frames.map (processStream (buildPipeline o))
    ∧ Effect.print .stdOut msgCompressedSize ∈ (runMain o env).effects
    ∧ Effect.print .stdOut msgBitRate ∈ (runMain o env).effects
    ∧ (runMain o env).exitCode = 0 := by
  have hra := readArguments_accepted o env hh hg hv
  refine ⟨?_, ?_, ?_, ?_, ?_, ?_⟩ <;>
    simp [runMain, ha, hra, hi, ho, hvo, hd]

/-- Witness for `dry_run_no_output` at a concrete truecolor dry run over
two frames. -/
theorem dry_run_no_output_witness :
    (runMain cfgDry envWithFrames).processed
      = envWithFrames.frames.map (processStream (buildPipeline cfgDry))
    ∧ (runMain cfgDry envWithFrames).exitCode = 0 := by
  have h := dry_run_no_output cfgDry envWithFrames rfl (by decide) rfl rfl
    (fun _ => rfl) rfl rfl rfl
  exact ⟨h.2.2.1, h.2.2.2.2.2⟩

end GBAIT
